import Mathlib

/-!
Shallow embedding of the analysis-and-decision core of the cognibot
repository (src/src/bias_detector.py, src/src/llm_analyzer.py,
src/src/cognibot.py), together with theorems settling the frozen claims
about it.

Conventions of the embedding:
* Python `float` confidences and timestamps are modelled as `ℚ`.
* Python lists are Lean `List`s, `None`-able fields are `Option`s.
* The external chat-completion transport is modelled as an oracle
  `Nat → Outcome` giving the outcome of each numbered attempt, and
  `json.loads` plus field extraction is modelled as an arbitrary partial
  parse function `String → Option Payload`.
* Regular-expression search (`re.finditer`) is modelled as an oracle
  producing the list of match spans for a pattern in a text; the claims
  settled here hold for every such oracle.
-/

namespace Cognibot

/-! ## bias_detector.py -/

/-- The `BiasType` enum from bias_detector.py. -/
inductive BiasType where
  | CONFIRMATION_BIAS
  | AD_HOMINEM
  | STRAWMAN
  | FALSE_DICHOTOMY
  | APPEAL_TO_AUTHORITY
  | BANDWAGON
  | SLIPPERY_SLOPE
  | CIRCULAR_REASONING
  | HASTY_GENERALIZATION
  | SURVIVORSHIP_BIAS
  | ANCHORING_BIAS
  | AVAILABILITY_HEURISTIC
  deriving DecidableEq, Repr

/-- The `BiasAnalysis` dataclass from bias_detector.py. -/
structure BiasAnalysis where
  bias_type : BiasType
  confidence : ℚ
  explanation : String
  severity : String
  context : String
  deriving DecidableEq, Repr

/-- The fixed regex table of `BiasDetector._initialize_patterns`, in the
dict's insertion order (Python dicts preserve insertion order). -/
def bias_patterns : List (BiasType × List String) :=
  [ (BiasType.AD_HOMINEM,
      [ "you're (stupid|idiot|moron|dumb)"
      , "only an? (idiot|fool|moron) would"
      , "coming from someone who"
      , "you clearly don't understand" ])
  , (BiasType.STRAWMAN,
      [ "so you're saying"
      , "what you really mean is"
      , "if we follow your logic"
      , "by that logic" ])
  , (BiasType.FALSE_DICHOTOMY,
      [ "either .+ or .+, there's no middle ground"
      , "you're either .+ or .+"
      , "if you're not .+, then you must be .+" ])
  , (BiasType.APPEAL_TO_AUTHORITY,
      [ "experts say"
      , "studies show"
      , "scientists agree"
      , "according to \\[famous person\\]" ])
  , (BiasType.BANDWAGON,
      [ "everyone knows"
      , "most people agree"
      , "it's common knowledge"
      , "everybody does it" ]) ]

/-- The description table of `BiasDetector._initialize_descriptions`, as a total function on the enum. -/
def bias_descriptions : BiasType → String
  | BiasType.CONFIRMATION_BIAS => "Tendency to search for, interpret, and recall information that confirms pre-existing beliefs"
  | BiasType.AD_HOMINEM => "Attacking the person making an argument rather than the argument itself"
  | BiasType.STRAWMAN => "Misrepresenting someone's argument to make it easier to attack"
  | BiasType.FALSE_DICHOTOMY => "Presenting only two options when more exist"
  | BiasType.APPEAL_TO_AUTHORITY => "Using authority as evidence without proper justification"
  | BiasType.BANDWAGON => "Believing something because many others believe it"
  | BiasType.SLIPPERY_SLOPE => "Assuming one event will lead to a chain of negative consequences"
  | BiasType.CIRCULAR_REASONING => "Using the conclusion as evidence for the premise"
  | BiasType.HASTY_GENERALIZATION => "Drawing broad conclusions from limited examples"
  | BiasType.SURVIVORSHIP_BIAS => "Focusing on successful examples while ignoring failures"
  | BiasType.ANCHORING_BIAS => "Over-relying on the first piece of information encountered"
  | BiasType.AVAILABILITY_HEURISTIC => "Overestimating likelihood based on memorable examples"

/-- Substring membership over the character list of a string (models
Python's `in` operator on `str`). -/
def containsSub (s pat : String) : Bool :=
  go s.data
where
  go : List Char → Bool
    | [] => pat.data.isPrefixOf []
    | c :: cs => pat.data.isPrefixOf (c :: cs) || go cs

/-- Python `str.lower()` (ASCII approximation), over the character list. -/
def pyLower (s : String) : String :=
  String.mk (s.data.map Char.toLower)

/-- Helper for `pyWords`: split a character list on whitespace runs,
dropping empty pieces; `acc` holds the current word reversed. -/
def splitWsAux : List Char → List Char → List (List Char)
  | [], acc => if acc = [] then [] else [acc.reverse]
  | c :: cs, acc =>
    if c.isWhitespace then
      if acc = [] then splitWsAux cs [] else acc.reverse :: splitWsAux cs []
    else splitWsAux cs (c :: acc)

/-- Python `str.split()` with no argument: split on whitespace runs,
dropping empty pieces. -/
def pyWords (s : String) : List String :=
  (splitWsAux s.data []).map String.mk

/-- Python `str.strip()`: drop whitespace from both ends. -/
def pyStrip (s : String) : String :=
  String.mk (((s.data.dropWhile Char.isWhitespace).reverse.dropWhile
    Char.isWhitespace).reverse)

/-- Embedding of `BiasDetector._calculate_confidence`.  The `match_text` argument is
present in the source signature but unused by its body. -/
def _calculate_confidence (bias_type : BiasType) (match_text full_text : String) : ℚ :=
  let _ := match_text
  let base0 : ℚ := 0.6
  let base1 : ℚ := if (pyWords full_text).length < 10 then base0 - 0.2 else base0
  let base2 : ℚ :=
    if bias_type = BiasType.AD_HOMINEM ∧
        (["argument", "point", "claim"].any fun w => containsSub (pyLower full_text) w) then
      base1 + 0.2
    else base1
  min 1 (max 0 base2)

/-- Embedding of `BiasDetector._determine_severity`. -/
def _determine_severity (confidence : ℚ) : String :=
  if confidence ≥ 0.8 then "high"
  else if confidence ≥ 0.6 then "medium"
  else "low"

/-- Embedding of `BiasDetector._extract_context` with the default window 50.  Python
slices the string by code points; `Nat` subtraction already truncates at 0
exactly as `max(0, start - window)` does. -/
def _extract_context (text : String) (start stop : Nat) : String :=
  let context_start := start - 50
  let context_stop := min text.data.length (stop + 50)
  pyStrip (String.mk ((text.data.drop context_start).take (context_stop - context_start)))

/-- One regex match as delivered by `re.finditer`: its span in the
searched text. -/
structure ReMatch where
  start : Nat
  stop : Nat
  matched : String
  deriving DecidableEq, Repr

/-- Embedding of `BiasDetector.analyze_text`, parameterised by the regex-search oracle
`finditer pattern text` standing for `re.finditer(pattern, text, re.IGNORECASE)`
(the searched text is `text.lower()` as in the source). -/
def analyze_text (finditer : String → String → List ReMatch) (text : String) :
    List BiasAnalysis :=
  (bias_patterns.map fun bp =>
    (bp.2.map fun pattern =>
      ((finditer pattern (pyLower text)).filterMap fun m =>
        let confidence := _calculate_confidence bp.1 m.matched text
        if confidence > 0.5 then
          some { bias_type := bp.1
               , confidence := confidence
               , explanation := bias_descriptions bp.1
               , severity := _determine_severity confidence
               , context := _extract_context text m.start m.stop }
        else none)).flatten).flatten

/-! ## llm_analyzer.py : error taxonomy, retry protocol, analysis results -/

/-- The `APIErrorType` enum from llm_analyzer.py. -/
inductive APIErrorType where
  | INVALID_API_KEY
  | RATE_LIMITED
  | NETWORK_ERROR
  | SERVICE_UNAVAILABLE
  | INSUFFICIENT_QUOTA
  | UNKNOWN_ERROR
  deriving DecidableEq, Repr

/-- The `LLMAnalysisResult` dataclass from llm_analyzer.py. -/
structure LLMAnalysisResult where
  has_biases : Bool
  confidence : ℚ
  detected_biases : List String
  reasoning_quality : String
  discussion_issues : List String
  suggestions : List String
  summary : String
  api_error : Option APIErrorType := none
  error_message : Option String := none
  deriving DecidableEq, Repr

/-- The retryable transport faults of `_make_api_call_with_retry`:
`asyncio.TimeoutError`, `openai.APIConnectionError`, `openai.InternalServerError`. -/
inductive RetryableKind where
  | timedOut
  | connectionFailure
  | serverError
  deriving DecidableEq, Repr

/-- The non-retryable rejections of `_make_api_call_with_retry`:
`openai.AuthenticationError`, `openai.RateLimitError`,
`openai.BadRequestError` (carrying `str(e)`). -/
inductive NonRetryableKind where
  | authFailure
  | rateLimitRejection
  | badRequest (msg : String)
  deriving DecidableEq, Repr

/-- Outcome of one transport attempt: a successful response (its
`choices[0].message.content`), or a fault of one of the two classes. -/
inductive Outcome where
  | success (content : String)
  | retryable (k : RetryableKind)
  | nonretryable (k : NonRetryableKind)
  deriving DecidableEq, Repr

/-- The exceptions that can escape `_make_api_call_with_retry` into the
callers' `except` clauses. -/
inductive ApiException where
  | timeoutErr
  | connectionErr
  | internalServerErr
  | authErr
  | rateLimitErr
  | badRequestErr (msg : String)
  | genericErr (msg : String)
  deriving DecidableEq, Repr

/-- Re-raising a retryable fault after the last attempt. -/
def retryableExc : RetryableKind → ApiException
  | RetryableKind.timedOut => ApiException.timeoutErr
  | RetryableKind.connectionFailure => ApiException.connectionErr
  | RetryableKind.serverError => ApiException.internalServerErr

/-- Raising a non-retryable fault immediately. -/
def nonRetryableExc : NonRetryableKind → ApiException
  | NonRetryableKind.authFailure => ApiException.authErr
  | NonRetryableKind.rateLimitRejection => ApiException.rateLimitErr
  | NonRetryableKind.badRequest msg => ApiException.badRequestErr msg

/-- How a call to `_make_api_call_with_retry` ends: the returned response
content, or a raised exception. -/
inductive CallResult where
  | ok (content : String)
  | raised (e : ApiException)
  deriving DecidableEq, Repr

/-- Observable trace of one `_make_api_call_with_retry` run: its final
result, the backoff delays slept (in seconds, in order), and the number
of attempts made. -/
structure RetryTrace where
  result : CallResult
  delays : List ℕ
  attempts : ℕ
  deriving DecidableEq, Repr

/-- The loop body of `_make_api_call_with_retry`: `attempt` is the Python
loop variable running over `range(1, max_attempts + 1)` with
`max_attempts = 3`; the fuel argument counts the remaining loop
iterations.  On fuel exhaustion the function falls through the loop to
`raise Exception("Unexpected error in retry logic")`.  The backoff delay
is `base_delay * (2 ** (attempt - 1))` with `base_delay = 1.0` second. -/
def retryGo (f : Nat → Outcome) : Nat → Nat → RetryTrace
  | _, 0 => ⟨CallResult.raised (ApiException.genericErr "Unexpected error in retry logic"), [], 0⟩
  | attempt, fuel + 1 =>
    match f attempt with
    | Outcome.success c => ⟨CallResult.ok c, [], 1⟩
    | Outcome.retryable k =>
      if attempt = 3 then ⟨CallResult.raised (retryableExc k), [], 1⟩
      else
        let t := retryGo f (attempt + 1) fuel
        ⟨t.result, 2 ^ (attempt - 1) :: t.delays, t.attempts + 1⟩
    | Outcome.nonretryable k => ⟨CallResult.raised (nonRetryableExc k), [], 1⟩

/-- Embedding of `LLMAnalyzer._make_api_call_with_retry` over the attempt-outcome
oracle `f`: attempts are numbered 1, 2, 3. -/
def _make_api_call_with_retry (f : Nat → Outcome) : RetryTrace :=
  retryGo f 1 3

/-- The error-kind-specific suggestion lists of
`LLMAnalyzer._create_fallback_result`. -/
def fallbackSuggestions : APIErrorType → List String
  | APIErrorType.INVALID_API_KEY => ["OpenAI API key is invalid or expired - please check configuration"]
  | APIErrorType.RATE_LIMITED => ["API rate limit exceeded - analysis will resume shortly"]
  | APIErrorType.INSUFFICIENT_QUOTA => ["OpenAI quota exceeded - please check billing and usage limits"]
  | APIErrorType.NETWORK_ERROR => ["Network connection issue - please check internet connectivity"]
  | APIErrorType.SERVICE_UNAVAILABLE => ["OpenAI service temporarily unavailable - please try again later"]
  | APIErrorType.UNKNOWN_ERROR => ["LLM analysis temporarily unavailable due to technical issues"]

/-- Embedding of `LLMAnalyzer._create_fallback_result`. -/
def _create_fallback_result (error_type : APIErrorType) (error_message : String) :
    LLMAnalysisResult :=
  { has_biases := false
  , confidence := 0.0
  , detected_biases := []
  , reasoning_quality := "unknown"
  , discussion_issues := []
  , suggestions := fallbackSuggestions error_type
  , summary := "Analysis could not be completed due to technical issues."
  , api_error := some error_type
  , error_message := some error_message }

/-- A successfully `json.loads`-parsed response payload: each schema key
may be absent (`none`), in which case `analyze_message` applies its
`dict.get` default. -/
structure Payload where
  has_biases : Option Bool := none
  confidence : Option ℚ := none
  detected_biases : Option (List String) := none
  reasoning_quality : Option String := none
  discussion_issues : Option (List String) := none
  suggestions : Option (List String) := none
  summary : Option String := none
  deriving DecidableEq, Repr

/-- The `quota`/`billing` keyword test from the `BadRequestError` handler:
`"quota" in str(e).lower() or "billing" in str(e).lower()`. -/
def quotaOrBilling (msg : String) : Bool :=
  containsSub (pyLower msg) "quota" || containsSub (pyLower msg) "billing"

/-- Embedding of `LLMAnalyzer.analyze_message`, over the attempt-outcome oracle `f`
and a parse function `jparse` standing for `json.loads` applied to the
response content (`none` models `json.JSONDecodeError`).  Each `except`
clause of the source surrounds the whole try-body; the branches below are
in 1-1 correspondence with them. -/
def analyze_message (f : Nat → Outcome) (jparse : String → Option Payload) :
    LLMAnalysisResult :=
  match (_make_api_call_with_retry f).result with
  | CallResult.ok content =>
    match jparse content with
    | some d =>
      { has_biases := d.has_biases.getD false
      , confidence := d.confidence.getD 0.0
      , detected_biases := d.detected_biases.getD []
      , reasoning_quality := d.reasoning_quality.getD "fair"
      , discussion_issues := d.discussion_issues.getD []
      , suggestions := d.suggestions.getD []
      , summary := d.summary.getD "Analysis completed." }
    | none =>
      _create_fallback_result APIErrorType.UNKNOWN_ERROR "Failed to parse API response"
  | CallResult.raised e =>
    match e with
    | ApiException.timeoutErr =>
      _create_fallback_result APIErrorType.NETWORK_ERROR "API request timed out"
    | ApiException.authErr =>
      _create_fallback_result APIErrorType.INVALID_API_KEY "Invalid or expired OpenAI API key"
    | ApiException.rateLimitErr =>
      _create_fallback_result APIErrorType.RATE_LIMITED "API rate limit exceeded - too many requests"
    | ApiException.internalServerErr =>
      _create_fallback_result APIErrorType.SERVICE_UNAVAILABLE "OpenAI service temporarily unavailable"
    | ApiException.connectionErr =>
      _create_fallback_result APIErrorType.NETWORK_ERROR "Network connection to OpenAI failed"
    | ApiException.badRequestErr msg =>
      if quotaOrBilling msg then
        _create_fallback_result APIErrorType.INSUFFICIENT_QUOTA "OpenAI API quota exceeded"
      else
        _create_fallback_result APIErrorType.UNKNOWN_ERROR ("API request error: " ++ msg)
    | ApiException.genericErr msg =>
      _create_fallback_result APIErrorType.UNKNOWN_ERROR ("Unexpected error: " ++ msg)

/-- Embedding of `LLMAnalyzer.generate_educational_response`, over the attempt-outcome
oracle `f` of the underlying second call.  On success it returns the raw
response content; the two `except` groups return the two fixed apology
strings, and the final `except Exception` returns `None`. -/
def generate_educational_response (analysis : LLMAnalysisResult)
    (original_text : String) (f : Nat → Outcome) : Option String :=
  let _ := original_text
  if analysis.has_biases = false ∧ analysis.discussion_issues = [] then none
  else
    match (_make_api_call_with_retry f).result with
    | CallResult.ok content => some content
    | CallResult.raised e =>
      match e with
      | ApiException.authErr => some "⚠️ Unable to generate detailed response due to API issues."
      | ApiException.rateLimitErr => some "⚠️ Unable to generate detailed response due to API issues."
      | ApiException.badRequestErr _ => some "⚠️ Unable to generate detailed response due to API issues."
      | ApiException.timeoutErr => some "⚠️ Service temporarily unavailable. Please try again later."
      | ApiException.connectionErr => some "⚠️ Service temporarily unavailable. Please try again later."
      | ApiException.internalServerErr => some "⚠️ Service temporarily unavailable. Please try again later."
      | ApiException.genericErr _ => none

/-- Rounding half-to-even on `ℚ`, the rounding mode of Python's
`format(x, '.0%')`. -/
def roundHalfEven (x : ℚ) : ℤ :=
  let fl := ⌊x⌋
  let frac := x - fl
  if frac < 1 / 2 then fl
  else if 1 / 2 < frac then fl + 1
  else if fl % 2 = 0 then fl else fl + 1

/-- Python `f"{c:.0%}"`: the value times 100, rounded half-to-even to an
integer, with a percent sign. -/
def pyPercentFmt (c : ℚ) : String :=
  toString (roundHalfEven (c * 100)) ++ "%"

/-- Python `str.title()` (ASCII approximation): the first alphabetic
character of each alphabetic run is uppercased, the rest lowercased. -/
def pyTitle (s : String) : String :=
  String.mk (go false s.data)
where
  go : Bool → List Char → List Char
    | _, [] => []
    | prevAlpha, c :: cs =>
      if c.isAlpha then
        (if prevAlpha then c.toLower else c.toUpper) :: go true cs
      else c :: go false cs

/-- The `quality_emoji` lookup of `format_analysis_summary`:
`{"poor": "❌", "fair": "⚠️", "good": "✅", "excellent": "🌟"}.get(rq, "❓")`. -/
def qualityEmoji (rq : String) : String :=
  if rq = "poor" then "❌"
  else if rq = "fair" then "⚠️"
  else if rq = "good" then "✅"
  else if rq = "excellent" then "🌟"
  else "❓"

/-- Python `a or b` for an optional string `a`: `None` and the empty
string are both falsy. -/
def pyOrElse (a : Option String) (b : String) : String :=
  match a with
  | none => b
  | some s => if s = "" then b else s

/-- The `summary_parts` list built by `format_analysis_summary` on its
no-error, has-issues path, in the order the source appends its parts. -/
def summaryParts (analysis : LLMAnalysisResult) : List String :=
  let confidence_emoji : String :=
    if analysis.confidence > 0.8 then "🔴"
    else if analysis.confidence > 0.5 then "🟡" else "🟢"
  [confidence_emoji ++ " **Cognitive Bias Analysis** (Confidence: " ++
     pyPercentFmt analysis.confidence ++ ")"]
  ++ (if analysis.detected_biases = [] then []
      else "\n🧠 **Detected Issues:**" ::
        analysis.detected_biases.map fun bias => "• " ++ bias)
  ++ ["\n" ++ qualityEmoji analysis.reasoning_quality ++
        " **Reasoning Quality:** " ++ pyTitle analysis.reasoning_quality]
  ++ (if analysis.discussion_issues = [] then []
      else "\n⚠️ **Discussion Issues:**" ::
        analysis.discussion_issues.map fun issue => "• " ++ issue)
  ++ (if analysis.suggestions ≠ [] ∧ analysis.suggestions.length ≤ 3 then
        "\n💡 **Suggestions:**" ::
          (analysis.suggestions.take 3).map fun suggestion => "• " ++ suggestion
      else [])
  ++ (if analysis.summary = "" then []
      else ["\n📝 **Summary:** " ++ analysis.summary])

/-- Embedding of `LLMAnalyzer.format_analysis_summary`. -/
def format_analysis_summary (analysis : LLMAnalysisResult) : String :=
  match analysis.api_error with
  | some APIErrorType.INVALID_API_KEY =>
    "⚠️ **Configuration Issue**: OpenAI API key is invalid or expired. LLM analysis unavailable."
  | some APIErrorType.RATE_LIMITED =>
    "⏳ **Rate Limited**: Too many requests to OpenAI. Analysis will resume shortly."
  | some APIErrorType.INSUFFICIENT_QUOTA =>
    "💰 **Quota Exceeded**: OpenAI usage limits reached. Please check billing settings."
  | some APIErrorType.SERVICE_UNAVAILABLE =>
    "🔧 **Service Unavailable**: OpenAI service temporarily down. Using pattern-based analysis only."
  | some APIErrorType.NETWORK_ERROR =>
    "🌐 **Connection Issue**: Cannot reach OpenAI servers. Check internet connection."
  | some APIErrorType.UNKNOWN_ERROR =>
    "❌ **Analysis Error**: " ++ pyOrElse analysis.error_message "LLM analysis temporarily unavailable."
  | none =>
    if analysis.has_biases = false ∧ analysis.discussion_issues = [] then
      "✅ **Good Discussion Quality**: No significant cognitive biases or logical errors detected."
    else
      "\n".intercalate (summaryParts analysis)

/-! ## cognibot.py : decision policy and rate limiter -/

/-- Embedding of `CogniBot._should_respond`, with the configured
`settings.analysis_threshold` as a parameter. -/
def _should_respond (pattern_results : List BiasAnalysis)
    (llm_result : LLMAnalysisResult) (analysis_threshold : ℚ) : Bool :=
  let high_confidence_patterns :=
    pattern_results.filter fun r => r.confidence > analysis_threshold
  let llm_significant :=
    decide (llm_result.confidence > analysis_threshold) && llm_result.has_biases
  decide (high_confidence_patterns.length > 0) || llm_significant

/-- Embedding of `CogniBot._is_rate_limited`, with the bookkeeping map
`last_analysis_time` as a function to optional timestamps, time points in
seconds (`ℚ`), and the configured `settings.response_delay` in minutes:
`timedelta(minutes=response_delay)` is `60 * response_delay` seconds. -/
def _is_rate_limited (last_analysis_time : Int → Option ℚ) (chat_id : Int)
    (now : ℚ) (response_delay : ℚ) : Bool :=
  match last_analysis_time chat_id with
  | none => false
  | some t => decide (now - t < 60 * response_delay)

/-! ## Concrete example inputs used by counterexamples and witnesses -/

/-- Oracle: every attempt is rejected for authentication. -/
def oracleAuth : Nat → Outcome := fun _ => Outcome.nonretryable NonRetryableKind.authFailure

/-- Oracle: every attempt times out. -/
def oracleTimeout : Nat → Outcome := fun _ => Outcome.retryable RetryableKind.timedOut

/-- Oracle: every attempt succeeds with a fixed content string. -/
def oracleSuccess : Nat → Outcome := fun _ => Outcome.success "body"

/-- A parse function that always fails (models an unparseable body). -/
def jparseFail : String → Option Payload := fun _ => none

/-- A parse function returning the empty payload (all fields absent). -/
def jparseEmpty : String → Option Payload := fun _ => some {}

/-- A regex-search oracle that finds nothing. -/
def finditerEmpty : String → String → List ReMatch := fun _ _ => []

/-- A regex-search oracle with a single match for the `"everyone knows"`
pattern at the start of the text. -/
def finditerBandwagon : String → String → List ReMatch := fun pattern _ =>
  if pattern = "everyone knows" then [⟨0, 14, "everyone knows"⟩] else []

/-- A ten-word example text starting with a bandwagon marker. -/
def bandwagonText : String :=
  "everyone knows that this point was settled a long time ago"

/-- The finding that `analyze_text finditerBandwagon bandwagonText` emits. -/
def bandwagonFinding : BiasAnalysis :=
  { bias_type := BiasType.BANDWAGON
  , confidence := 0.6
  , explanation := "Believing something because many others believe it"
  , severity := "medium"
  , context := "everyone knows that this point was settled a long time ago" }

/-- An issue-free analysis result. -/
def noIssuesResult : LLMAnalysisResult :=
  { has_biases := false, confidence := 0.0, detected_biases := []
  , reasoning_quality := "good", discussion_issues := [], suggestions := []
  , summary := "fine" }

/-- An analysis result carrying issues. -/
def issuesResult : LLMAnalysisResult :=
  { has_biases := true, confidence := 0.9, detected_biases := ["ad hominem"]
  , reasoning_quality := "poor", discussion_issues := ["hostile tone"]
  , suggestions := ["be nicer"], summary := "issues found" }

/-- An error-free result with issues and four suggestions. -/
def fourSuggestionResult : LLMAnalysisResult :=
  { has_biases := true, confidence := 0.9, detected_biases := ["x"]
  , reasoning_quality := "good", discussion_issues := []
  , suggestions := ["a", "b", "c", "d"], summary := "s" }

/-- An error-free result with issues and two suggestions. -/
def twoSuggestionResult : LLMAnalysisResult :=
  { has_biases := true, confidence := 0.9, detected_biases := ["x"]
  , reasoning_quality := "good", discussion_issues := []
  , suggestions := ["a", "b"], summary := "s" }

/-! ## Claims -/

/-- Claim C1: the decision policy `_should_respond` returns true iff at least
one pattern finding has confidence strictly greater than the configured
analysis threshold, or the language-model result has `has_biases = true` and
confidence strictly greater than the same threshold; since the result is
quantified over every `llm_result`, the finding-side trigger holds regardless
of the language-model output, including results carrying an `api_error`. -/
theorem C1_should_respond_iff (pattern_results : List BiasAnalysis)
    (llm_result : LLMAnalysisResult) (analysis_threshold : ℚ) :
    _should_respond pattern_results llm_result analysis_threshold = true ↔
      ((∃ r ∈ pattern_results, r.confidence > analysis_threshold) ∨
        (llm_result.has_biases = true ∧ llm_result.confidence > analysis_threshold)) := by
  simp only [_should_respond, Bool.or_eq_true, Bool.and_eq_true, decide_eq_true_eq,
    List.length_pos, ne_eq, List.filter_eq_nil_iff, not_forall]
  constructor
  · rintro (h | ⟨hc, hb⟩)
    · left
      push_neg at h
      obtain ⟨r, hr, hp⟩ := h
      exact ⟨r, hr, by simpa using hp⟩
    · exact Or.inr ⟨hb, hc⟩
  · rintro (⟨r, hr, hp⟩ | ⟨hb, hc⟩)
    · left
      push_neg
      exact ⟨r, hr, by simpa using hp⟩
    · exact Or.inr ⟨hc, hb⟩

/-- Claim C8: `_is_rate_limited` reports a chat limited iff a prior recorded
response timestamp exists for it and `now - last` is strictly below the
configured cooldown (`response_delay` minutes); in particular a chat with no
recorded response is never limited, for any query time. -/
theorem C8_is_rate_limited_iff (last_analysis_time : Int → Option ℚ) (chat_id : Int)
    (now response_delay : ℚ) :
    _is_rate_limited last_analysis_time chat_id now response_delay = true ↔
      ∃ t, last_analysis_time chat_id = some t ∧ now - t < 60 * response_delay := by
  cases h : last_analysis_time chat_id <;> simp [_is_rate_limited, h]

lemma analyze_message_error_form (f : Nat → Outcome) (jparse : String → Option Payload)
    (k : APIErrorType) (h : (analyze_message f jparse).api_error = some k) :
    ∃ msg, analyze_message f jparse = _create_fallback_result k msg := by
  rcases hres : (_make_api_call_with_retry f).result with c | e
  · unfold analyze_message at h ⊢
    simp only [hres] at h ⊢
    rcases hp : jparse c with _ | d
    · simp only [hp, _create_fallback_result, Option.some.injEq] at h ⊢
      subst h
      exact ⟨_, rfl⟩
    · simp [hp] at h
  · unfold analyze_message at h ⊢
    simp only [hres] at h ⊢
    rcases e with _ | _ | _ | _ | _ | msg | msg
    case timeoutErr | connectionErr | internalServerErr | authErr | rateLimitErr =>
      simp only [_create_fallback_result, Option.some.injEq] at h
      subst h
      exact ⟨_, rfl⟩
    case badRequestErr =>
      by_cases hq : quotaOrBilling msg = true
      · simp only [hq, if_true, _create_fallback_result, Option.some.injEq] at h ⊢
        subst h
        exact ⟨_, rfl⟩
      · simp only [Bool.not_eq_true] at hq
        simp only [hq, Bool.false_eq_true, if_false, _create_fallback_result,
          Option.some.injEq] at h ⊢
        subst h
        exact ⟨_, rfl⟩
    case genericErr =>
      simp only [_create_fallback_result, Option.some.injEq] at h
      subst h
      exact ⟨_, rfl⟩

/-- Claim C4: every `analyze_message` result with `api_error` set has
`has_biases = false`, confidence 0, empty `detected_biases` and
`discussion_issues`, and `suggestions` equal to the single-element
kind-specific recovery hint list for that error kind. -/
theorem C4_error_result_invariant (f : Nat → Outcome) (jparse : String → Option Payload)
    (k : APIErrorType) (h : (analyze_message f jparse).api_error = some k) :
    (analyze_message f jparse).has_biases = false ∧
    (analyze_message f jparse).confidence = 0 ∧
    (analyze_message f jparse).detected_biases = [] ∧
    (analyze_message f jparse).discussion_issues = [] ∧
    (analyze_message f jparse).suggestions = fallbackSuggestions k ∧
    (fallbackSuggestions k).length = 1 := by
  obtain ⟨msg, hmsg⟩ := analyze_message_error_form f jparse k h
  rw [hmsg]
  refine ⟨rfl, by norm_num [_create_fallback_result], rfl, rfl, rfl, ?_⟩
  cases k <;> rfl

/-- Witness for C4 at the concrete always-auth-rejecting oracle. -/
theorem C4_error_result_invariant_witness :
    (analyze_message oracleAuth jparseFail).api_error = some APIErrorType.INVALID_API_KEY ∧
    (analyze_message oracleAuth jparseFail).suggestions =
      fallbackSuggestions APIErrorType.INVALID_API_KEY := by
  refine ⟨rfl, ?_⟩
  exact (C4_error_result_invariant oracleAuth jparseFail APIErrorType.INVALID_API_KEY rfl).2.2.2.2.1


lemma make_api_call_cases (f : Nat → Outcome) :
    _make_api_call_with_retry f =
      match f 1 with
      | Outcome.success c => ⟨CallResult.ok c, [], 1⟩
      | Outcome.nonretryable k => ⟨CallResult.raised (nonRetryableExc k), [], 1⟩
      | Outcome.retryable _ =>
        match f 2 with
        | Outcome.success c => ⟨CallResult.ok c, [1], 2⟩
        | Outcome.nonretryable k => ⟨CallResult.raised (nonRetryableExc k), [1], 2⟩
        | Outcome.retryable _ =>
          match f 3 with
          | Outcome.success c => ⟨CallResult.ok c, [1, 2], 3⟩
          | Outcome.nonretryable k => ⟨CallResult.raised (nonRetryableExc k), [1, 2], 3⟩
          | Outcome.retryable k3 => ⟨CallResult.raised (retryableExc k3), [1, 2], 3⟩ := by
  rcases h1 : f 1 with c1 | r1 | n1 <;>
    rcases h2 : f 2 with c2 | r2 | n2 <;>
      rcases h3 : f 3 with c3 | r3 | n3 <;>
        simp [_make_api_call_with_retry, retryGo, h1, h2, h3]


/-- Claim C2: the retry loop makes between 1 and 3 attempts; the backoff
delays are exactly `2 ^ (k - 1)` seconds after each retryable failure on
attempt `k < 3` (so at most 1s then 2s); every non-final attempt failed with
a retryable fault; three consecutive retryable failures surface the third
failure's exception as the terminal outcome; and a non-retryable failure on
attempt `k` terminates immediately with that exception, `k` attempts made and
no backoff delay after it. -/
theorem C2_retry_protocol (f : Nat → Outcome) :
    (1 ≤ (_make_api_call_with_retry f).attempts ∧ (_make_api_call_with_retry f).attempts ≤ 3)
    ∧ (_make_api_call_with_retry f).delays =
        (List.range ((_make_api_call_with_retry f).attempts - 1)).map (fun i => 2 ^ i)
    ∧ (∀ k, 1 ≤ k → k < (_make_api_call_with_retry f).attempts →
        ∃ rk, f k = Outcome.retryable rk)
    ∧ (∀ r3, (∃ r1, f 1 = Outcome.retryable r1) → (∃ r2, f 2 = Outcome.retryable r2) →
        f 3 = Outcome.retryable r3 →
        (_make_api_call_with_retry f).result = CallResult.raised (retryableExc r3) ∧
        (_make_api_call_with_retry f).attempts = 3)
    ∧ (∀ k nk, 1 ≤ k → k ≤ 3 → (∀ j, 1 ≤ j → j < k → ∃ rj, f j = Outcome.retryable rj) →
        f k = Outcome.nonretryable nk →
        (_make_api_call_with_retry f).result = CallResult.raised (nonRetryableExc nk) ∧
        (_make_api_call_with_retry f).attempts = k ∧
        (_make_api_call_with_retry f).delays.length = k - 1) := by
  rcases h1 : f 1 with c1 | r1 | n1
  · simp only [make_api_call_cases, h1]
    refine ⟨by omega, by decide, ?_, ?_, ?_⟩
    · intro k hk1 hk2; omega
    · rintro r3' ⟨r1', hr1⟩ _ _
      cases hr1
    · intro k nk hk1 hk3' hj hfk
      interval_cases k
      · rw [h1] at hfk; cases hfk
      · obtain ⟨rj, hrj⟩ := hj 1 (by omega) (by omega)
        rw [h1] at hrj; cases hrj
      · obtain ⟨rj, hrj⟩ := hj 1 (by omega) (by omega)
        rw [h1] at hrj; cases hrj
  · rcases h2 : f 2 with c2 | r2 | n2
    · simp only [make_api_call_cases, h1, h2]
      refine ⟨by omega, by decide, ?_, ?_, ?_⟩
      · intro k hk1 hk2
        interval_cases k
        exact ⟨r1, h1⟩
      · rintro r3' _ ⟨r2', hr2⟩ _
        cases hr2
      · intro k nk hk1 hk3' hj hfk
        interval_cases k
        · rw [h1] at hfk; cases hfk
        · rw [h2] at hfk; cases hfk
        · obtain ⟨rj, hrj⟩ := hj 2 (by omega) (by omega)
          rw [h2] at hrj; cases hrj
    · rcases h3 : f 3 with c3 | r3 | n3
      · simp only [make_api_call_cases, h1, h2, h3]
        refine ⟨by omega, by decide, ?_, ?_, ?_⟩
        · intro k hk1 hk2
          interval_cases k
          · exact ⟨r1, h1⟩
          · exact ⟨r2, h2⟩
        · rintro r3' _ _ hr3
          cases hr3
        · intro k nk hk1 hk3' hj hfk
          interval_cases k
          · rw [h1] at hfk; cases hfk
          · rw [h2] at hfk; cases hfk
          · rw [h3] at hfk; cases hfk
      · simp only [make_api_call_cases, h1, h2, h3]
        refine ⟨by omega, by decide, ?_, ?_, ?_⟩
        · intro k hk1 hk2
          interval_cases k
          · exact ⟨r1, h1⟩
          · exact ⟨r2, h2⟩
        · rintro r3' _ _ hr3
          injection hr3 with he
          subst he
          exact ⟨rfl, trivial⟩
        · intro k nk hk1 hk3' hj hfk
          interval_cases k
          · rw [h1] at hfk; cases hfk
          · rw [h2] at hfk; cases hfk
          · rw [h3] at hfk; cases hfk
      · simp only [make_api_call_cases, h1, h2, h3]
        refine ⟨by omega, by decide, ?_, ?_, ?_⟩
        · intro k hk1 hk2
          interval_cases k
          · exact ⟨r1, h1⟩
          · exact ⟨r2, h2⟩
        · rintro r3' _ _ hr3
          cases hr3
        · intro k nk hk1 hk3' hj hfk
          interval_cases k
          · rw [h1] at hfk; cases hfk
          · rw [h2] at hfk; cases hfk
          · rw [h3] at hfk
            injection hfk with he
            subst he
            exact ⟨rfl, rfl, rfl⟩
    · simp only [make_api_call_cases, h1, h2]
      refine ⟨by omega, by decide, ?_, ?_, ?_⟩
      · intro k hk1 hk2
        interval_cases k
        exact ⟨r1, h1⟩
      · rintro r3' _ ⟨r2', hr2⟩ _
        cases hr2
      · intro k nk hk1 hk3' hj hfk
        interval_cases k
        · rw [h1] at hfk; cases hfk
        · rw [h2] at hfk
          injection hfk with he
          subst he
          exact ⟨rfl, rfl, rfl⟩
        · obtain ⟨rj, hrj⟩ := hj 2 (by omega) (by omega)
          rw [h2] at hrj; cases hrj
  · simp only [make_api_call_cases, h1]
    refine ⟨by omega, by decide, ?_, ?_, ?_⟩
    · intro k hk1 hk2; omega
    · rintro r3' ⟨r1', hr1⟩ _ _
      cases hr1
    · intro k nk hk1 hk3' hj hfk
      interval_cases k
      · rw [h1] at hfk
        injection hfk with he
        subst he
        exact ⟨rfl, rfl, rfl⟩
      · obtain ⟨rj, hrj⟩ := hj 1 (by omega) (by omega)
        rw [h1] at hrj; cases hrj
      · obtain ⟨rj, hrj⟩ := hj 1 (by omega) (by omega)
        rw [h1] at hrj; cases hrj

/-- Witness for C2: an authentication rejection on attempt 1 returns
immediately with no delays, and three timeouts sleep 1s and 2s and surface
the timeout. -/
theorem C2_retry_protocol_witness :
    (_make_api_call_with_retry oracleAuth).result = CallResult.raised ApiException.authErr ∧
    (_make_api_call_with_retry oracleAuth).attempts = 1 ∧
    (_make_api_call_with_retry oracleAuth).delays = [] ∧
    (_make_api_call_with_retry oracleTimeout).result = CallResult.raised ApiException.timeoutErr ∧
    (_make_api_call_with_retry oracleTimeout).delays = [1, 2] := by
  have h5 := (C2_retry_protocol oracleAuth).2.2.2.2 1 NonRetryableKind.authFailure
    (by omega) (by omega) (fun j hj1 hj2 => absurd hj2 (by omega)) rfl
  have h4 := (C2_retry_protocol oracleTimeout).2.2.2.1 RetryableKind.timedOut
    ⟨RetryableKind.timedOut, rfl⟩ ⟨RetryableKind.timedOut, rfl⟩ rfl
  have h2 := (C2_retry_protocol oracleTimeout).2.1
  refine ⟨h5.1, h5.2.1, ?_, h4.1, ?_⟩
  · have := h5.2.2
    simpa using List.length_eq_zero.mp (by simpa using this)
  · rw [h2, h4.2]
    decide


/-- Claim C3: `analyze_message` resolves every failure of the external call
or of response parsing to a fallback `LLMAnalysisResult` classified in the
closed six-kind taxonomy: authentication to INVALID_API_KEY, rate limiting to
RATE_LIMITED, timeout and connection failure to NETWORK_ERROR, server error
to SERVICE_UNAVAILABLE, a bad-request message containing a quota/billing
keyword to INSUFFICIENT_QUOTA, any other bad request or unexpected error or
an unparseable body to UNKNOWN_ERROR; a parsed success carries no error. -/
theorem C3_analyze_message_taxonomy (f : Nat → Outcome) (jparse : String → Option Payload) :
    ((_make_api_call_with_retry f).result = CallResult.raised ApiException.authErr →
      (analyze_message f jparse).api_error = some APIErrorType.INVALID_API_KEY)
    ∧ ((_make_api_call_with_retry f).result = CallResult.raised ApiException.rateLimitErr →
      (analyze_message f jparse).api_error = some APIErrorType.RATE_LIMITED)
    ∧ ((_make_api_call_with_retry f).result = CallResult.raised ApiException.timeoutErr →
      (analyze_message f jparse).api_error = some APIErrorType.NETWORK_ERROR)
    ∧ ((_make_api_call_with_retry f).result = CallResult.raised ApiException.connectionErr →
      (analyze_message f jparse).api_error = some APIErrorType.NETWORK_ERROR)
    ∧ ((_make_api_call_with_retry f).result = CallResult.raised ApiException.internalServerErr →
      (analyze_message f jparse).api_error = some APIErrorType.SERVICE_UNAVAILABLE)
    ∧ (∀ msg, (_make_api_call_with_retry f).result = CallResult.raised (ApiException.badRequestErr msg) →
      quotaOrBilling msg = true →
      (analyze_message f jparse).api_error = some APIErrorType.INSUFFICIENT_QUOTA)
    ∧ (∀ msg, (_make_api_call_with_retry f).result = CallResult.raised (ApiException.badRequestErr msg) →
      quotaOrBilling msg = false →
      (analyze_message f jparse).api_error = some APIErrorType.UNKNOWN_ERROR)
    ∧ (∀ msg, (_make_api_call_with_retry f).result = CallResult.raised (ApiException.genericErr msg) →
      (analyze_message f jparse).api_error = some APIErrorType.UNKNOWN_ERROR)
    ∧ (∀ c, (_make_api_call_with_retry f).result = CallResult.ok c → jparse c = none →
      (analyze_message f jparse).api_error = some APIErrorType.UNKNOWN_ERROR)
    ∧ (∀ c p, (_make_api_call_with_retry f).result = CallResult.ok c → jparse c = some p →
      (analyze_message f jparse).api_error = none) := by
  refine ⟨?_, ?_, ?_, ?_, ?_, ?_, ?_, ?_, ?_, ?_⟩
  · intro h; unfold analyze_message; rw [h]; rfl
  · intro h; unfold analyze_message; rw [h]; rfl
  · intro h; unfold analyze_message; rw [h]; rfl
  · intro h; unfold analyze_message; rw [h]; rfl
  · intro h; unfold analyze_message; rw [h]; rfl
  · intro msg h hq; unfold analyze_message; rw [h]; simp [hq]; rfl
  · intro msg h hq; unfold analyze_message; rw [h]; simp [hq]; rfl
  · intro msg h; unfold analyze_message; rw [h]; rfl
  · intro c h hp; unfold analyze_message; rw [h]; simp [hp]; rfl
  · intro c p h hp; unfold analyze_message; rw [h]; simp [hp]

/-- Witness for C3 at concrete oracles for auth failure, timeouts, parse
failure and parsed success. -/
theorem C3_analyze_message_taxonomy_witness :
    (analyze_message oracleAuth jparseFail).api_error = some APIErrorType.INVALID_API_KEY ∧
    (analyze_message oracleTimeout jparseFail).api_error = some APIErrorType.NETWORK_ERROR ∧
    (analyze_message oracleSuccess jparseFail).api_error = some APIErrorType.UNKNOWN_ERROR ∧
    (analyze_message oracleSuccess jparseEmpty).api_error = none := by
  refine ⟨(C3_analyze_message_taxonomy oracleAuth jparseFail).1 rfl,
    (C3_analyze_message_taxonomy oracleTimeout jparseFail).2.2.1 rfl,
    (C3_analyze_message_taxonomy oracleSuccess jparseFail).2.2.2.2.2.2.2.2.1 "body" rfl rfl,
    (C3_analyze_message_taxonomy oracleSuccess jparseEmpty).2.2.2.2.2.2.2.2.2 "body" {} rfl rfl⟩

lemma make_api_call_result_form (f : Nat → Outcome) :
    (∃ c, (_make_api_call_with_retry f).result = CallResult.ok c) ∨
    (∃ rk, (_make_api_call_with_retry f).result = CallResult.raised (retryableExc rk)) ∨
    (∃ nk, (_make_api_call_with_retry f).result = CallResult.raised (nonRetryableExc nk)) := by
  rw [make_api_call_cases]
  rcases h1 : f 1 with c1 | r1 | n1
  · exact Or.inl ⟨c1, rfl⟩
  · rcases h2 : f 2 with c2 | r2 | n2
    · exact Or.inl ⟨c2, rfl⟩
    · rcases h3 : f 3 with c3 | r3 | n3
      · exact Or.inl ⟨c3, rfl⟩
      · exact Or.inr (Or.inl ⟨r3, rfl⟩)
      · exact Or.inr (Or.inr ⟨n3, rfl⟩)
    · exact Or.inr (Or.inr ⟨n2, rfl⟩)
  · exact Or.inr (Or.inr ⟨n1, rfl⟩)

lemma retry_never_generic (f : Nat → Outcome) (msg : String) :
    (_make_api_call_with_retry f).result ≠ CallResult.raised (ApiException.genericErr msg) := by
  intro h
  rcases make_api_call_result_form f with ⟨c, hc⟩ | ⟨rk, hrk⟩ | ⟨nk, hnk⟩
  · rw [hc] at h; cases h
  · rw [hrk] at h
    rcases rk <;> simp [retryableExc] at h
  · rw [hnk] at h
    rcases nk <;> simp [nonRetryableExc] at h

/-- Claim C6: `generate_educational_response` returns `none` when the prior
result carried no issues (`has_biases` false and empty `discussion_issues`),
and when the prior result carried issues and the underlying second call
raises any terminal error of the retry protocol it returns one of the two
short fixed apology strings, never `none`. -/
theorem C6_generate_followup (analysis : LLMAnalysisResult) (original_text : String)
    (f : Nat → Outcome) :
    (analysis.has_biases = false ∧ analysis.discussion_issues = [] →
      generate_educational_response analysis original_text f = none)
    ∧ (¬(analysis.has_biases = false ∧ analysis.discussion_issues = []) →
      ∀ e, (_make_api_call_with_retry f).result = CallResult.raised e →
        ∃ s, generate_educational_response analysis original_text f = some s ∧
          (s = "⚠️ Unable to generate detailed response due to API issues." ∨
            s = "⚠️ Service temporarily unavailable. Please try again later.")) := by
  constructor
  · intro h
    unfold generate_educational_response
    rw [if_pos h]
  · intro h e he
    unfold generate_educational_response
    rw [if_neg h, he]
    rcases e with _ | _ | _ | _ | _ | m | m
    · exact ⟨_, rfl, Or.inr rfl⟩
    · exact ⟨_, rfl, Or.inr rfl⟩
    · exact ⟨_, rfl, Or.inr rfl⟩
    · exact ⟨_, rfl, Or.inl rfl⟩
    · exact ⟨_, rfl, Or.inl rfl⟩
    · exact ⟨_, rfl, Or.inl rfl⟩
    · exact absurd he (retry_never_generic f m)

/-- Witness for C6: an issue-free result yields `none`; an issue-carrying
result with an always-timing-out transport yields an apology string. -/
theorem C6_generate_followup_witness :
    generate_educational_response noIssuesResult "t" oracleSuccess = none ∧
    ∃ s, generate_educational_response issuesResult "t" oracleTimeout = some s ∧
      (s = "⚠️ Unable to generate detailed response due to API issues." ∨
        s = "⚠️ Service temporarily unavailable. Please try again later.") := by
  exact ⟨(C6_generate_followup noIssuesResult "t" oracleSuccess).1 ⟨rfl, rfl⟩,
    (C6_generate_followup issuesResult "t" oracleTimeout).2
      (by simp [issuesResult]) ApiException.timeoutErr rfl⟩

/-- Counterexample to C7 as stated: the fallback result produced by
`analyze_message` under an authentication failure has `reasoning_quality`
equal to "unknown", which is none of poor/fair/good/excellent. -/
theorem C7_counterexample :
    (analyze_message oracleAuth jparseFail).reasoning_quality = "unknown" ∧
    ("unknown" ≠ "poor" ∧ "unknown" ≠ "fair" ∧ "unknown" ≠ "good" ∧ "unknown" ≠ "excellent") := by
  exact ⟨rfl, by decide⟩

/-- Claim C7 (amended): error-bearing results produced by `analyze_message`
have `reasoning_quality = "unknown"`; successfully parsed results take the
payload's `reasoning_quality`, defaulting to "fair" when the field is
absent (and are otherwise unconstrained free text). -/
theorem C7_reasoning_quality (f : Nat → Outcome) (jparse : String → Option Payload) :
    ((analyze_message f jparse).api_error.isSome = true →
      (analyze_message f jparse).reasoning_quality = "unknown")
    ∧ (∀ c p, (_make_api_call_with_retry f).result = CallResult.ok c → jparse c = some p →
      (analyze_message f jparse).reasoning_quality = p.reasoning_quality.getD "fair") := by
  constructor
  · intro h
    obtain ⟨k, hk⟩ := Option.isSome_iff_exists.mp h
    obtain ⟨msg, hmsg⟩ := analyze_message_error_form f jparse k hk
    rw [hmsg]; rfl
  · intro c p hc hp
    unfold analyze_message
    rw [hc]
    simp [hp]

/-- Witness for C7 at the auth-failing oracle and at a parsed empty
payload. -/
theorem C7_reasoning_quality_witness :
    (analyze_message oracleAuth jparseFail).api_error.isSome = true ∧
    (analyze_message oracleAuth jparseFail).reasoning_quality = "unknown" ∧
    (analyze_message oracleSuccess jparseEmpty).reasoning_quality = "fair" := by
  refine ⟨rfl, (C7_reasoning_quality oracleAuth jparseFail).1 rfl, ?_⟩
  exact (C7_reasoning_quality oracleSuccess jparseEmpty).2 "body" {} rfl rfl


lemma mem_analyze_text {finditer : String → String → List ReMatch} {text : String}
    {r : BiasAnalysis} (h : r ∈ analyze_text finditer text) :
    ∃ bt mt, r.confidence = _calculate_confidence bt mt text ∧
      _calculate_confidence bt mt text > 0.5 ∧
      r.severity = _determine_severity (_calculate_confidence bt mt text) := by
  unfold analyze_text at h
  obtain ⟨l1, hl1, hr1⟩ := List.mem_flatten.mp h
  obtain ⟨bp, hbp, rfl⟩ := List.mem_map.mp hl1
  obtain ⟨l2, hl2, hr2⟩ := List.mem_flatten.mp hr1
  obtain ⟨pattern, hpat, rfl⟩ := List.mem_map.mp hl2
  obtain ⟨m, hm, hfm⟩ := List.mem_filterMap.mp hr2
  dsimp only at hfm
  by_cases hc : _calculate_confidence bp.1 m.matched text > 0.5
  · rw [if_pos hc] at hfm
    obtain rfl := Option.some.inj hfm
    exact ⟨bp.1, m.matched, rfl, hc, rfl⟩
  · rw [if_neg hc] at hfm
    cases hfm

/-- Claim C9: `analyze_text` is total (a Lean function) and every finding it
returns has confidence strictly greater than 0.5; when the regex search finds
no match for any pattern (in particular on empty input, which none of the
table's patterns matches), it returns the empty list. -/
theorem C9_analyze_text_total (finditer : String → String → List ReMatch) (text : String) :
    (∀ r ∈ analyze_text finditer text, r.confidence > 0.5)
    ∧ ((∀ p, finditer p (pyLower text) = []) → analyze_text finditer text = []) := by
  constructor
  · intro r hr
    obtain ⟨bt, mt, hc, hgt, _⟩ := mem_analyze_text hr
    rw [hc]; exact hgt
  · intro hempty
    unfold analyze_text
    simp [hempty]

/-- Witness for C9: the no-match oracle on the empty string yields the empty
finding list. -/
theorem C9_analyze_text_total_witness :
    (∀ p, finditerEmpty p (pyLower "") = []) ∧
    analyze_text finditerEmpty "" = [] := by
  exact ⟨fun _ => rfl, (C9_analyze_text_total finditerEmpty "").2 fun _ => rfl⟩

lemma calc_confidence_cases (bt : BiasType) (mt ft : String) :
    _calculate_confidence bt mt ft = 0.4 ∨ _calculate_confidence bt mt ft = 0.6 ∨
      _calculate_confidence bt mt ft = 0.8 := by
  simp only [_calculate_confidence]
  split_ifs <;> norm_num [min_def, max_def]

/-- Claim C10: every finding emitted by `analyze_text` has confidence exactly
0.6 or exactly 0.8 (the 0.4 short-text value falls below the 0.5 reporting
cutoff), hence severity "medium" or "high" and never "low". -/
theorem C10_confidence_tiers (finditer : String → String → List ReMatch) (text : String)
    (r : BiasAnalysis) (h : r ∈ analyze_text finditer text) :
    (r.confidence = 0.6 ∨ r.confidence = 0.8)
    ∧ (r.severity = "medium" ∨ r.severity = "high")
    ∧ r.severity ≠ "low" := by
  obtain ⟨bt, mt, hc, hgt, hs⟩ := mem_analyze_text h
  rcases calc_confidence_cases bt mt text with h4 | h6 | h8
  · rw [h4] at hgt; norm_num at hgt
  · rw [h6] at hc hs
    have hsev : _determine_severity 0.6 = "medium" := by
      norm_num [_determine_severity]
    rw [hsev] at hs
    exact ⟨Or.inl hc, Or.inl hs, by rw [hs]; decide⟩
  · rw [h8] at hc hs
    have hsev : _determine_severity 0.8 = "high" := by
      norm_num [_determine_severity]
    rw [hsev] at hs
    exact ⟨Or.inr hc, Or.inr hs, by rw [hs]; decide⟩


lemma bandwagon_conf :
    _calculate_confidence BiasType.BANDWAGON "everyone knows" bandwagonText = 0.6 := by
  simp only [_calculate_confidence]
  rw [if_neg (by decide), if_neg (by decide)]
  norm_num [min_def, max_def]

lemma bandwagon_context :
    _extract_context bandwagonText 0 14 =
      "everyone knows that this point was settled a long time ago" := by
  decide

/-- The single finding produced on `bandwagonText` by `finditerBandwagon`. -/
theorem analyze_text_bandwagon_eq :
    analyze_text finditerBandwagon bandwagonText = [bandwagonFinding] := by
  simp only [analyze_text, bias_patterns, finditerBandwagon, List.map_cons, List.map_nil,
    List.flatten_cons, List.flatten_nil, bandwagon_conf, bandwagonFinding]
  norm_num [List.filterMap, bandwagon_conf, bandwagon_context, _determine_severity,
    bias_descriptions]

/-- Witness for C10: the concrete bandwagon finding is emitted and has
confidence 0.6 and severity "medium". -/
theorem C10_confidence_tiers_witness :
    bandwagonFinding ∈ analyze_text finditerBandwagon bandwagonText ∧
    ((bandwagonFinding.confidence = 0.6 ∨ bandwagonFinding.confidence = 0.8)
      ∧ (bandwagonFinding.severity = "medium" ∨ bandwagonFinding.severity = "high")
      ∧ bandwagonFinding.severity ≠ "low") := by
  have hmem : bandwagonFinding ∈ analyze_text finditerBandwagon bandwagonText := by
    rw [analyze_text_bandwagon_eq]
    exact List.mem_singleton.mpr rfl
  exact ⟨hmem, C10_confidence_tiers finditerBandwagon bandwagonText bandwagonFinding hmem⟩


/-! ## String helper lemmas for the formatter claims -/

lemma string_ne_of_head {s t : String} (h : s.data.head? ≠ t.data.head?) : s ≠ t := by
  intro he
  exact h (by rw [he])

lemma string_ne_of_second {s t : String} (h : s.data.tail.head? ≠ t.data.tail.head?) :
    s ≠ t := by
  intro he
  exact h (by rw [he])

lemma bullet_ne_sugg_header (s : String) : ("• " ++ s) ≠ "\n💡 **Suggestions:**" := by
  intro h
  have h2 := congrArg String.data h
  rw [String.data_append] at h2
  simp at h2

lemma summary_part_ne_sugg_header (s : String) :
    ("\n📝 **Summary:** " ++ s) ≠ "\n💡 **Suggestions:**" := by
  intro h
  have h2 := congrArg String.data h
  rw [String.data_append] at h2
  simp at h2

lemma quality_part_ne_sugg_header (rq : String) :
    ("\n" ++ qualityEmoji rq ++ " **Reasoning Quality:** " ++ pyTitle rq) ≠
      "\n💡 **Suggestions:**" := by
  intro h
  have h2 := congrArg String.data h
  unfold qualityEmoji at h2
  split_ifs at h2 <;>
    · rw [String.data_append, String.data_append, String.data_append] at h2
      simp at h2

lemma conf_part_ne_sugg_header (c : ℚ) :
    ((if c > 0.8 then "🔴" else if c > 0.5 then "🟡" else "🟢") ++
        " **Cognitive Bias Analysis** (Confidence: " ++ pyPercentFmt c ++ ")") ≠
      "\n💡 **Suggestions:**" := by
  intro h
  have h2 := congrArg String.data h
  split_ifs at h2 <;>
    · rw [String.data_append, String.data_append, String.data_append] at h2
      simp at h2


lemma sugg_header_mem_iff (a : LLMAnalysisResult) :
    "\n💡 **Suggestions:**" ∈ summaryParts a ↔
      (a.suggestions ≠ [] ∧ a.suggestions.length ≤ 3) := by
  constructor
  · intro h
    by_cases hc : a.suggestions ≠ [] ∧ a.suggestions.length ≤ 3
    · exact hc
    · exfalso
      unfold summaryParts at h
      rw [if_neg hc] at h
      simp only [List.append_nil, List.mem_append, List.mem_singleton, List.mem_cons,
        List.mem_map, List.mem_ite_nil_left, List.mem_ite_nil_right] at h
      rcases h with ((((h | h) | h) | h) | h) | h
      · exact conf_part_ne_sugg_header a.confidence h.symm
      · simp at h
      · rcases h with ⟨_, h | ⟨b, _, h⟩⟩
        · exact absurd h (by decide)
        · exact bullet_ne_sugg_header b h
      · rcases h with h | h
        · exact quality_part_ne_sugg_header a.reasoning_quality h.symm
        · simp at h
      · rcases h with ⟨_, h | ⟨i, _, h⟩⟩
        · exact absurd h (by decide)
        · exact bullet_ne_sugg_header i h
      · rcases h with ⟨_, h | h⟩
        · exact summary_part_ne_sugg_header a.summary h.symm
        · simp at h
  · intro hc
    unfold summaryParts
    rw [if_pos hc]
    simp


lemma format_eq_parts (a : LLMAnalysisResult) (herr : a.api_error = none)
    (hiss : ¬(a.has_biases = false ∧ a.discussion_issues = [])) :
    format_analysis_summary a = "\n".intercalate (summaryParts a) := by
  unfold format_analysis_summary
  simp only [herr]
  rw [if_neg hiss]

/-- Counterexample to C5 as stated: an error-free result with issues and a
non-empty four-element suggestions list whose rendered summary parts omit the
suggestions section entirely. -/
theorem C5_counterexample :
    fourSuggestionResult.api_error = none ∧
    fourSuggestionResult.has_biases = true ∧
    fourSuggestionResult.suggestions ≠ [] ∧
    "\n💡 **Suggestions:**" ∉ summaryParts fourSuggestionResult := by
  refine ⟨rfl, rfl, by decide, ?_⟩
  rw [sugg_header_mem_iff]
  simp [fourSuggestionResult]

/-- Claim C5 (amended): on an error-free result with issues,
`format_analysis_summary` joins the summary parts, and those parts contain
the suggestions section iff the suggestions list is non-empty with at most 3
elements; when it has at most 3 elements all of them are listed. -/
theorem C5_suggestions_section (a : LLMAnalysisResult)
    (herr : a.api_error = none)
    (hiss : ¬(a.has_biases = false ∧ a.discussion_issues = [])) :
    format_analysis_summary a = "\n".intercalate (summaryParts a)
    ∧ ("\n💡 **Suggestions:**" ∈ summaryParts a ↔
        (a.suggestions ≠ [] ∧ a.suggestions.length ≤ 3))
    ∧ (a.suggestions.length ≤ 3 →
        ∀ s ∈ a.suggestions, ("• " ++ s) ∈ summaryParts a) := by
  refine ⟨format_eq_parts a herr hiss, sugg_header_mem_iff a, ?_⟩
  intro hlen s hs
  unfold summaryParts
  have hcond : a.suggestions ≠ [] ∧ a.suggestions.length ≤ 3 :=
    ⟨List.ne_nil_of_mem hs, hlen⟩
  rw [if_pos hcond, List.take_of_length_le hlen]
  refine List.mem_append_left _ (List.mem_append_right _ ?_)
  exact List.mem_cons_of_mem _ (List.mem_map.mpr ⟨s, hs, rfl⟩)

/-- Witness for C5 (amended) at a concrete two-suggestion result. -/
theorem C5_suggestions_section_witness :
    twoSuggestionResult.api_error = none ∧
    ¬(twoSuggestionResult.has_biases = false ∧ twoSuggestionResult.discussion_issues = []) ∧
    "\n💡 **Suggestions:**" ∈ summaryParts twoSuggestionResult := by
  have h := C5_suggestions_section twoSuggestionResult rfl (by simp [twoSuggestionResult])
  exact ⟨rfl, by simp [twoSuggestionResult], h.2.1.mpr ⟨by decide, by decide⟩⟩

end Cognibot
